import Mathlib

/-!
Verification of the go-socket-storm WebSocket load generator (src/index.go).

The per-connection worker is embedded as an explicit state machine driven by a
list of environment inputs (shutdown observations, dial results, read results,
ping-write results), following the labelled-loop reading of the source: the
outer `reconnectLoop` is the Connecting phase, the inner read loop is the
Connected phase, and `goto reconnectLoop` is a transition back to Connecting
that, as in Go, does not run the function-exit `defer` statements.
-/

namespace SocketStorm

/-- gorilla/websocket close code 1000. -/
def closeNormalClosure : Nat := 1000

/-- gorilla/websocket close code 1001. -/
def closeGoingAway : Nat := 1001

/-- gorilla/websocket close code 1005. -/
def closeNoStatusReceived : Nat := 1005

/-- gorilla/websocket message type constant TextMessage. -/
def textMessage : Nat := 1

/-- gorilla/websocket message type constant PongMessage. -/
def pongMessage : Nat := 10

/-- Nanoseconds in one second (Go time.Second). -/
def nanosPerSecond : Nat := 1000000000

/-- The read deadline window set by the worker: 10 seconds, in nanoseconds
(src/index.go lines 189, 219, 239). -/
def readDeadlineWindow : Nat := 10 * nanosPerSecond

/-- src/index.go line 149: `const maxReconnectAttempts = 0` (0 = unlimited). -/
def maxReconnectAttempts : Nat := 0

/-- The four shared int64 counters of src/index.go lines 26-31. -/
structure Counters where
  successful : Int
  failed : Int
  active : Int
  bytesRead : Int
deriving Repr, DecidableEq

/-- The all-zero initial counter state of a fresh run. -/
def initCounters : Counters := ⟨0, 0, 0, 0⟩

/-- Lifecycle phase of a worker: the `reconnectLoop` (Connecting), the read
loop (Connected), and function return (Terminated). -/
inductive Phase
  | connecting
  | connected
  | terminated
deriving Repr, DecidableEq

/-- Outcome of `websocket.DefaultDialer.Dial` as the worker observes it. -/
inductive DialResult
  | ok
  | fail
deriving Repr, DecidableEq

/-- Outcome of `conn.ReadMessage` as the worker observes it: a message with a
type and payload, a close error carrying a close code, a net.Error timeout,
or any other error. -/
inductive ReadResult
  | msg (messageType : Nat) (payload : List Nat)
  | closeError (code : Nat)
  | timeoutError
  | otherError
deriving Repr, DecidableEq

/-- Outcome of the heartbeat `conn.WriteMessage(PingMessage, nil)`. -/
inductive PingResult
  | ok
  | fail
deriving Repr, DecidableEq

/-- One loop iteration's environment: whether the non-blocking select on the
shutdown channel sees it closed, the current clock (nanoseconds), and the
results the wire collaborator would return for dial / read / ping at this
iteration (only the field relevant to the current phase is consumed). -/
structure EnvInput where
  shutdownFired : Bool
  now : Nat
  dial : DialResult
  read : ReadResult
  ping : PingResult
deriving Repr, DecidableEq

/-- Worker-local state: the current phase, the number of deferred
`atomic.AddInt64(&activeConnections, -1)` calls stacked and not yet run, the
number of deferred `conn.Close()` calls stacked and not yet run (these two
grow by one per successful dial, src/index.go lines 186-187, and run only
when the worker function returns), the reconnect attempt counter, and the
current read deadline. -/
structure WState where
  phase : Phase
  pendingDecs : Nat
  openHandles : Nat
  reconnectAttempts : Nat
  readDeadline : Nat
deriving Repr, DecidableEq

/-- A worker starts in Connecting with no stacked deferred calls. -/
def initWState : WState := ⟨Phase.connecting, 0, 0, 0, 0⟩

/-- gorilla/websocket IsUnexpectedCloseError applied to a close error with
the given code: true when the code is not in the expected list. -/
def isUnexpectedCloseError (code : Nat) (expected : List Nat) : Bool :=
  !(expected.contains code)

/-- gorilla/websocket IsCloseError applied to a close error with the given
code: true when the code is in the given list. -/
def isCloseError (code : Nat) (codes : List Nat) : Bool :=
  codes.contains code

/-- The condition at src/index.go lines 206-207 on a close error. -/
def closedBranch (code : Nat) : Bool :=
  isUnexpectedCloseError code
      [closeGoingAway, closeNormalClosure, closeNoStatusReceived]
    || isCloseError code [closeNormalClosure, closeGoingAway]

/-- Running every deferred call stacked so far: each deferred
`activeConnections -= 1` runs, each deferred `conn.Close()` runs, and the
worker function returns (src/index.go lines 141-147, 186-187). -/
def runDefers (s : WState) (c : Counters) : WState × Counters :=
  ({ s with phase := Phase.terminated, pendingDecs := 0, openHandles := 0 },
   { c with active := c.active - (s.pendingDecs : Int) })

/-- One iteration of the worker's current loop (src/index.go lines 156-240),
consuming one environment input. Returns the next worker state, the updated
shared counters, and the diagnostic log lines emitted. `goto reconnectLoop`
is modelled as setting the phase back to Connecting without touching the
stacked deferred calls, exactly as Go's `goto` does not run `defer`s. -/
def workerStep (verbose : Bool) (s : WState) (c : Counters) (i : EnvInput) :
    WState × Counters × List String :=
  match s.phase with
  | Phase.terminated => (s, c, [])
  | Phase.connecting =>
    if i.shutdownFired then
      let logs := if verbose then ["worker skipping connection due to shutdown signal"] else []
      let sc := runDefers s c
      (sc.1, sc.2, logs)
    else
      match i.dial with
      | DialResult.fail =>
        let c2 := { c with failed := c.failed + 1 }
        let logs := if verbose then ["connection failed"] else []
        if 0 < maxReconnectAttempts ∧ maxReconnectAttempts ≤ s.reconnectAttempts then
          let sc := runDefers s c2
          (sc.1, sc.2, logs)
        else
          ({ s with reconnectAttempts := s.reconnectAttempts + 1 }, c2, logs)
      | DialResult.ok =>
        let c2 := { c with successful := c.successful + 1, active := c.active + 1 }
        let s2 := { s with phase := Phase.connected,
                           pendingDecs := s.pendingDecs + 1,
                           openHandles := s.openHandles + 1,
                           readDeadline := i.now + readDeadlineWindow }
        (s2, c2, [])
  | Phase.connected =>
    if i.shutdownFired then
      let logs := if verbose then ["worker received shutdown closing connection"] else []
      let sc := runDefers s c
      (sc.1, sc.2, logs)
    else
      match i.read with
      | ReadResult.msg messageType payload =>
        let c2 := { c with bytesRead := c.bytesRead + (payload.length : Int) }
        let logs :=
          (if verbose && messageType == textMessage then ["worker received text"] else [])
            ++ (if messageType == pongMessage && verbose then ["worker received pong"] else [])
        ({ s with readDeadline := i.now + readDeadlineWindow }, c2, logs)
      | ReadResult.closeError code =>
        if closedBranch code then
          let logs := if verbose then ["worker connection closed"] else []
          ({ s with phase := Phase.connecting }, c, logs)
        else
          let logs := if verbose then ["worker unhandled error"] else []
          ({ s with phase := Phase.connecting }, c, logs)
      | ReadResult.timeoutError =>
        match i.ping with
        | PingResult.ok =>
          ({ s with readDeadline := i.now + readDeadlineWindow }, c, [])
        | PingResult.fail =>
          let logs := if verbose then ["worker ping failed"] else []
          ({ s with phase := Phase.connecting }, c, logs)
      | ReadResult.otherError =>
        let logs := if verbose then ["worker unhandled error"] else []
        ({ s with phase := Phase.connecting }, c, logs)

/-- The worker's full run over a list of environment inputs. -/
def workerRun (verbose : Bool) (s : WState) (c : Counters) :
    List EnvInput → WState × Counters × List String
  | [] => (s, c, [])
  | i :: rest =>
    let r := workerStep verbose s c i
    let r2 := workerRun verbose r.1 r.2.1 rest
    (r2.1, r2.2.1, r.2.2 ++ r2.2.2)

/-- One select resolution of the ramp loop at src/index.go lines 99-110:
either the ticker fires (spawn one worker) or the shutdown channel is seen
closed (stop ramping). -/
inductive RampEvent
  | tick
  | shutdownObserved
deriving Repr, DecidableEq

/-- The ramp loop: while fewer than `target` workers have been spawned,
consume select resolutions; a tick spawns one worker, observing shutdown
jumps to endLoop. Returns the total number of workers spawned. -/
def rampLoop (target : Nat) (spawned : Nat) : List RampEvent → Nat
  | [] => spawned
  | e :: rest =>
    if spawned < target then
      match e with
      | RampEvent.tick => rampLoop target (spawned + 1) rest
      | RampEvent.shutdownObserved => spawned
    else spawned

/-- A Go channel, as used for the shutdown broadcast: only its closed flag
matters here. -/
structure Chan where
  closed : Bool
deriving Repr, DecidableEq

/-- Outcome of Go's `close(ch)`: closing an open channel closes it; closing
an already-closed channel panics. -/
inductive CloseOutcome
  | ok (c : Chan)
  | panicClosed
deriving Repr, DecidableEq

/-- Go `close(ch)` semantics. Firing the shutdown signal in src/index.go
(lines 77 and 89) is exactly `close(shutdown)`. -/
def closeChan (c : Chan) : CloseOutcome :=
  if c.closed then CloseOutcome.panicClosed else CloseOutcome.ok ⟨true⟩

/-- Firing the shutdown signal twice in sequence, as when the duration timer
fires and an interrupt then arrives (src/index.go lines 74-92). -/
def fireTwice : CloseOutcome :=
  match closeChan ⟨false⟩ with
  | CloseOutcome.ok c => closeChan c
  | CloseOutcome.panicClosed => CloseOutcome.panicClosed

/-- src/index.go line 87: `time.Sleep(time.Duration(*duration))`. The flag
value is converted directly to a time.Duration, whose unit is nanoseconds,
so the timer sleeps this many nanoseconds. -/
def durationSleepNanos (d : Nat) : Nat := d

/-- Modelled from the spec: the `-d` flag is a duration in seconds, so the
intended sleep before firing the shutdown signal is `d` seconds expressed in
nanoseconds. -/
def specIntendedSleepNanos (d : Nat) : Nat := d * nanosPerSecond

/-- A worker state holding one live connection in the Connected phase. -/
def oneConnState : WState := ⟨Phase.connected, 1, 1, 0, 0⟩

/-- Counters as they stand right after that worker's first successful dial. -/
def oneConnCounters : Counters := ⟨1, 0, 1, 0⟩

/-- Environment input: shutdown not fired, the read times out, and the
heartbeat ping write then fails. -/
def pingFailInput : EnvInput := ⟨false, 0, DialResult.ok, ReadResult.timeoutError, PingResult.fail⟩

/-- Environment input: shutdown not fired, the read fails with a
normal-closure close error. -/
def normalCloseInput : EnvInput :=
  ⟨false, 0, DialResult.ok, ReadResult.closeError closeNormalClosure, PingResult.ok⟩

/-- A single worker trace with concurrency target 1: dial succeeds, the peer
then closes normally, and the worker dials again successfully. -/
def reconnectTrace : List EnvInput :=
  [⟨false, 0, DialResult.ok, ReadResult.msg 1 [], PingResult.ok⟩,
   normalCloseInput,
   ⟨false, 0, DialResult.ok, ReadResult.msg 1 [], PingResult.ok⟩]

/-- C1: contrary to the claim (and the README), when a read times out and
the heartbeat ping write fails, the code at src/index.go lines 211-218 jumps
back to `reconnectLoop` WITHOUT incrementing `failed`: the failed counter is
unchanged, not incremented by one. The transition back to Connecting does
happen. -/
theorem ping_failure_not_counted :
    (workerStep false oneConnState oneConnCounters pingFailInput).2.1.failed
        = oneConnCounters.failed
      ∧ (workerStep false oneConnState oneConnCounters pingFailInput).2.1.failed
        ≠ oneConnCounters.failed + 1
      ∧ (workerStep false oneConnState oneConnCounters pingFailInput).1.phase
        = Phase.connecting := by
  decide

/-- C2: the duration timer at src/index.go line 87 sleeps
`time.Duration(*duration)`, i.e. `d` NANOSECONDS, not the `d` seconds the
flag documents: with duration 3 the code sleeps 3 nanoseconds while the
intended sleep is 3 seconds. -/
theorem duration_timer_nanoseconds :
    durationSleepNanos 3 = 3
      ∧ specIntendedSleepNanos 3 = 3000000000
      ∧ durationSleepNanos 3 ≠ specIntendedSleepNanos 3 := by
  decide

/-- C3: firing the shutdown signal is `close(shutdown)`; firing it a second
time (duration expiry racing a manual interrupt) panics instead of being a
no-op, so firing twice does not have the observable effect of firing once. -/
theorem fire_twice_panics :
    fireTwice = CloseOutcome.panicClosed
      ∧ closeChan ⟨false⟩ ≠ CloseOutcome.panicClosed := by
  decide

/-- C4: contrary to the claim, on a non-shutdown exit from Connected (here a
normal-closure read error) the `goto reconnectLoop` at src/index.go line 226
re-enters Connecting WITHOUT running the deferred `active` decrement and
`conn.Close()`: `active` is unchanged and the handle stays open. -/
theorem reconnect_keeps_active_and_handle :
    (workerStep false oneConnState oneConnCounters normalCloseInput).1.phase
        = Phase.connecting
      ∧ (workerStep false oneConnState oneConnCounters normalCloseInput).2.1.active
        = oneConnCounters.active
      ∧ (workerStep false oneConnState oneConnCounters normalCloseInput).1.pendingDecs = 1
      ∧ (workerStep false oneConnState oneConnCounters normalCloseInput).1.openHandles = 1 := by
  decide

/-- C5: contrary to the claim, `active` can exceed the concurrency target:
a run with a single worker (target 1) that connects, suffers a normal close,
and reconnects ends with `active = 2`, because the reconnect path never runs
the deferred decrement. -/
theorem active_exceeds_target :
    (workerRun false initWState initCounters reconnectTrace).2.1.active = 2
      ∧ ¬ (workerRun false initWState initCounters reconnectTrace).2.1.active ≤ 1 := by
  decide

theorem rampLoop_le (target : Nat) :
    ∀ (evs : List RampEvent) (s : Nat), s ≤ target → rampLoop target s evs ≤ target := by
  intro evs
  induction evs with
  | nil => intro s hs; simpa [rampLoop] using hs
  | cons e rest ih =>
    intro s hs
    by_cases hlt : s < target
    · cases e with
      | tick => simpa [rampLoop, hlt] using ih (s + 1) hlt
      | shutdownObserved => simpa [rampLoop, hlt] using hs
    · simpa [rampLoop, hlt] using hs

theorem rampLoop_no_shutdown (target : Nat) :
    ∀ (evs : List RampEvent) (s : Nat), s ≤ target →
      RampEvent.shutdownObserved ∉ evs →
      rampLoop target s evs = min (s + evs.length) target := by
  intro evs
  induction evs with
  | nil =>
    intro s hs _
    simp [rampLoop]
    omega
  | cons e rest ih =>
    intro s hs hmem
    have he : e = RampEvent.tick := by
      cases e with
      | tick => rfl
      | shutdownObserved => exact absurd (List.mem_cons_self _ _) hmem
    subst he
    have hmem2 : RampEvent.shutdownObserved ∉ rest := by
      intro h; exact hmem (List.mem_cons_of_mem _ h)
    by_cases hlt : s < target
    · have := ih (s + 1) hlt hmem2
      simp only [rampLoop, hlt, if_true, List.length_cons]
      rw [this]
      omega
    · have hseq : s = target := by omega
      simp [rampLoop, hlt, List.length_cons]
      omega

theorem rampLoop_stops (target : Nat) :
    ∀ (pre rest : List RampEvent) (s : Nat),
      rampLoop target s (pre ++ RampEvent.shutdownObserved :: rest)
        = rampLoop target s (pre ++ [RampEvent.shutdownObserved]) := by
  intro pre
  induction pre with
  | nil =>
    intro rest s
    by_cases hlt : s < target <;> simp [rampLoop, hlt]
  | cons e pre ih =>
    intro rest s
    by_cases hlt : s < target
    · cases e with
      | tick => simp [rampLoop, hlt, ih]
      | shutdownObserved => simp [rampLoop, hlt]
    · simp [rampLoop, hlt]

/-- C6: the ramp controller spawns at most `target` workers; it spawns
exactly `target` when the shutdown signal is never observed and enough ticks
arrive (ramp-up completes); and once the shutdown signal is observed, the
remaining events cause no further spawns. -/
theorem ramp_spawn_bounds (target : Nat) (evs pre rest : List RampEvent) :
    rampLoop target 0 evs ≤ target
      ∧ (RampEvent.shutdownObserved ∉ evs → target ≤ evs.length →
          rampLoop target 0 evs = target)
      ∧ rampLoop target 0 (pre ++ RampEvent.shutdownObserved :: rest)
          = rampLoop target 0 (pre ++ [RampEvent.shutdownObserved]) := by
  refine ⟨rampLoop_le target evs 0 (Nat.zero_le _), ?_, rampLoop_stops target pre rest 0⟩
  intro hmem hlen
  have := rampLoop_no_shutdown target evs 0 (Nat.zero_le _) hmem
  rw [this]
  omega

/-- Concrete instance of `ramp_spawn_bounds`: with target 2 and three ticks
the ramp spawns exactly 2 workers, and events after an observed shutdown are
irrelevant. -/
theorem ramp_spawn_bounds_witness :
    rampLoop 2 0 [RampEvent.tick, RampEvent.tick, RampEvent.tick] = 2
      ∧ rampLoop 2 0 ([RampEvent.tick] ++ RampEvent.shutdownObserved :: [RampEvent.tick])
          = rampLoop 2 0 ([RampEvent.tick] ++ [RampEvent.shutdownObserved]) := by
  have h := ramp_spawn_bounds 2 [RampEvent.tick, RampEvent.tick, RampEvent.tick]
    [RampEvent.tick] [RampEvent.tick]
  exact ⟨h.2.1 (by decide) (by decide), h.2.2⟩

/-- C7: a read failure with close code 1000 (normal closure), 1001 (going
away) or 1005 (no status received) leaves the `failed` counter unchanged and
sends the worker back to the Connecting phase. -/
theorem expected_close_no_failed (verbose : Bool) (s : WState) (c : Counters)
    (i : EnvInput) (code : Nat)
    (hphase : s.phase = Phase.connected) (hsd : i.shutdownFired = false)
    (hread : i.read = ReadResult.closeError code)
    (_hcode : code = closeNormalClosure ∨ code = closeGoingAway
      ∨ code = closeNoStatusReceived) :
    (workerStep verbose s c i).2.1.failed = c.failed
      ∧ (workerStep verbose s c i).1.phase = Phase.connecting := by
  simp only [workerStep, hphase, hsd, hread]
  split_ifs <;> simp_all

/-- Concrete instance of `expected_close_no_failed`: a normal-closure read
error on a live connection leaves `failed` at 0 and re-enters Connecting. -/
theorem expected_close_no_failed_witness :
    (workerStep false oneConnState oneConnCounters normalCloseInput).2.1.failed
        = oneConnCounters.failed
      ∧ (workerStep false oneConnState oneConnCounters normalCloseInput).1.phase
        = Phase.connecting :=
  expected_close_no_failed false oneConnState oneConnCounters normalCloseInput
    closeNormalClosure rfl rfl rfl (Or.inl rfl)

theorem workerStep_mono (v : Bool) (s : WState) (c : Counters) (i : EnvInput) :
    c.successful ≤ (workerStep v s c i).2.1.successful
      ∧ c.failed ≤ (workerStep v s c i).2.1.failed
      ∧ c.bytesRead ≤ (workerStep v s c i).2.1.bytesRead := by
  rcases s with ⟨ph, pd, oh, ra, rd⟩
  rcases i with ⟨sd, now, dial, read, ping⟩
  cases ph <;> cases sd <;> cases dial <;> cases read <;> cases ping <;>
    simp [workerStep, runDefers, maxReconnectAttempts] <;>
    split_ifs <;> simp

theorem workerRun_mono (v : Bool) :
    ∀ (inputs : List EnvInput) (s : WState) (c : Counters),
      c.successful ≤ (workerRun v s c inputs).2.1.successful
        ∧ c.failed ≤ (workerRun v s c inputs).2.1.failed
        ∧ c.bytesRead ≤ (workerRun v s c inputs).2.1.bytesRead := by
  intro inputs
  induction inputs with
  | nil => intro s c; simp [workerRun]
  | cons i rest ih =>
    intro s c
    have h1 := workerStep_mono v s c i
    have h2 := ih (workerStep v s c i).1 (workerStep v s c i).2.1
    simp only [workerRun]
    exact ⟨le_trans h1.1 h2.1, le_trans h1.2.1 h2.2.1, le_trans h1.2.2 h2.2.2⟩

/-- C8: a successful read adds exactly the payload length to `bytesRead`,
resets the read deadline to now plus the 10-second window, and stays in
Connected; and over any run, `successful`, `failed` and `bytesRead` are
non-decreasing. -/
theorem read_success_updates_and_monotone (verbose : Bool) (s : WState)
    (c : Counters) (i : EnvInput) (messageType : Nat) (payload : List Nat)
    (inputs : List EnvInput)
    (hphase : s.phase = Phase.connected) (hsd : i.shutdownFired = false)
    (hread : i.read = ReadResult.msg messageType payload) :
    (workerStep verbose s c i).2.1.bytesRead = c.bytesRead + (payload.length : Int)
      ∧ (workerStep verbose s c i).1.readDeadline = i.now + readDeadlineWindow
      ∧ (workerStep verbose s c i).1.phase = Phase.connected
      ∧ c.successful ≤ (workerRun verbose s c inputs).2.1.successful
      ∧ c.failed ≤ (workerRun verbose s c inputs).2.1.failed
      ∧ c.bytesRead ≤ (workerRun verbose s c inputs).2.1.bytesRead := by
  have hmono := workerRun_mono verbose inputs s c
  refine ⟨?_, ?_, ?_, hmono.1, hmono.2.1, hmono.2.2⟩ <;>
    simp [workerStep, hphase, hsd, hread]

/-- Concrete instance of `read_success_updates_and_monotone`: reading a
3-byte message at time 7 adds 3 to `bytesRead`, sets the deadline to
7 plus the window, and the counters never decrease over a later run. -/
theorem read_success_updates_and_monotone_witness :
    (workerStep false oneConnState oneConnCounters
        ⟨false, 7, DialResult.ok, ReadResult.msg 1 [5, 6, 7], PingResult.ok⟩).2.1.bytesRead
        = oneConnCounters.bytesRead + ((3 : Nat) : Int)
      ∧ (workerStep false oneConnState oneConnCounters
          ⟨false, 7, DialResult.ok, ReadResult.msg 1 [5, 6, 7], PingResult.ok⟩).1.readDeadline
          = 7 + readDeadlineWindow
      ∧ (workerStep false oneConnState oneConnCounters
          ⟨false, 7, DialResult.ok, ReadResult.msg 1 [5, 6, 7], PingResult.ok⟩).1.phase
          = Phase.connected
      ∧ oneConnCounters.successful
          ≤ (workerRun false oneConnState oneConnCounters [pingFailInput]).2.1.successful
      ∧ oneConnCounters.failed
          ≤ (workerRun false oneConnState oneConnCounters [pingFailInput]).2.1.failed
      ∧ oneConnCounters.bytesRead
          ≤ (workerRun false oneConnState oneConnCounters [pingFailInput]).2.1.bytesRead := by
  have h := read_success_updates_and_monotone false oneConnState oneConnCounters
    ⟨false, 7, DialResult.ok, ReadResult.msg 1 [5, 6, 7], PingResult.ok⟩
    1 [5, 6, 7] [pingFailInput] rfl rfl rfl
  simpa using h

theorem workerStep_verbose_indep (s : WState) (c : Counters) (i : EnvInput) :
    (workerStep true s c i).1 = (workerStep false s c i).1
      ∧ (workerStep true s c i).2.1 = (workerStep false s c i).2.1 := by
  rcases s with ⟨ph, pd, oh, ra, rd⟩
  rcases i with ⟨sd, now, dial, read, ping⟩
  cases ph <;> cases sd <;> cases dial <;> cases read <;> cases ping <;>
    simp [workerStep, runDefers, maxReconnectAttempts] <;> split_ifs <;> simp

/-- C9: two runs from the same state and counters over the same sequence of
dial/read/ping outcomes, differing only in the verbose flag, end in the same
worker state and the same counters: verbosity affects only the log lines. -/
theorem verbose_noninterference (s : WState) (c : Counters)
    (inputs : List EnvInput) :
    (workerRun true s c inputs).1 = (workerRun false s c inputs).1
      ∧ (workerRun true s c inputs).2.1 = (workerRun false s c inputs).2.1 := by
  induction inputs generalizing s c with
  | nil => simp [workerRun]
  | cons i rest ih =>
    have h := workerStep_verbose_indep s c i
    simp only [workerRun]
    rw [h.1, h.2]
    exact ih _ _

theorem workerStep_state_indep (v : Bool) (s : WState) (c c2 : Counters)
    (i : EnvInput) :
    (workerStep v s c i).1 = (workerStep v s c2 i).1 := by
  rcases s with ⟨ph, pd, oh, ra, rd⟩
  rcases i with ⟨sd, now, dial, read, ping⟩
  cases ph <;> cases sd <;> cases dial <;> cases read <;> cases ping <;>
    simp [workerStep, runDefers, maxReconnectAttempts] <;> split_ifs <;> simp

theorem workerRun_state_indep (v : Bool) :
    ∀ (inputs : List EnvInput) (s : WState) (c c2 : Counters),
      (workerRun v s c inputs).1 = (workerRun v s c2 inputs).1 := by
  intro inputs
  induction inputs with
  | nil => intro s c c2; simp [workerRun]
  | cons i rest ih =>
    intro s c c2
    simp only [workerRun]
    rw [workerStep_state_indep v s c c2 i]
    exact ih _ _ _

theorem workerStep_active_pending (v : Bool) (s : WState) (c : Counters)
    (i : EnvInput) :
    (workerStep v s c i).2.1.active - ((workerStep v s c i).1.pendingDecs : Int)
      = c.active - (s.pendingDecs : Int) := by
  rcases s with ⟨ph, pd, oh, ra, rd⟩
  rcases i with ⟨sd, now, dial, read, ping⟩
  cases ph <;> cases sd <;> cases dial <;> cases read <;> cases ping <;>
    simp [workerStep, runDefers, maxReconnectAttempts] <;> split_ifs <;>
    simp

theorem workerRun_active_pending (v : Bool) :
    ∀ (inputs : List EnvInput) (s : WState) (c : Counters),
      (workerRun v s c inputs).2.1.active
          - ((workerRun v s c inputs).1.pendingDecs : Int)
        = c.active - (s.pendingDecs : Int) := by
  intro inputs
  induction inputs with
  | nil => intro s c; simp [workerRun]
  | cons i rest ih =>
    intro s c
    have h1 := workerStep_active_pending v s c i
    have h2 := ih (workerStep v s c i).1 (workerStep v s c i).2.1
    simp only [workerRun]
    rw [h2, h1]

theorem workerStep_term_pending (v : Bool) (s : WState) (c : Counters)
    (i : EnvInput) (h : s.phase = Phase.terminated → s.pendingDecs = 0) :
    (workerStep v s c i).1.phase = Phase.terminated →
      (workerStep v s c i).1.pendingDecs = 0 := by
  rcases s with ⟨ph, pd, oh, ra, rd⟩
  rcases i with ⟨sd, now, dial, read, ping⟩
  cases ph <;> cases sd <;> cases dial <;> cases read <;> cases ping <;>
    simp_all [workerStep, runDefers, maxReconnectAttempts] <;> split_ifs <;>
    simp_all

theorem workerRun_term_pending (v : Bool) :
    ∀ (inputs : List EnvInput) (s : WState) (c : Counters),
      (s.phase = Phase.terminated → s.pendingDecs = 0) →
      ((workerRun v s c inputs).1.phase = Phase.terminated →
        (workerRun v s c inputs).1.pendingDecs = 0) := by
  intro inputs
  induction inputs with
  | nil => intro s c h; simpa [workerRun] using h
  | cons i rest ih =>
    intro s c h
    simp only [workerRun]
    exact ih _ _ (workerStep_term_pending v s c i h)

theorem worker_balanced (v : Bool) (c : Counters) (tr : List EnvInput)
    (h : (workerRun v initWState c tr).1.phase = Phase.terminated) :
    (workerRun v initWState c tr).2.1.active = c.active := by
  have h1 := workerRun_active_pending v tr initWState c
  have h2 := workerRun_term_pending v tr initWState c (fun _ => rfl) h
  rw [h2] at h1
  simpa [initWState] using h1

/-- The run coordinator's aggregate effect: workers spawned one per slot,
each mutating the shared counters. Because every worker's counter updates
are pure additions whose amounts depend only on that worker's own inputs
(see `workerRun_state_indep`), any interleaving yields the same final
counters as this sequential composition. -/
def runAll (v : Bool) (c : Counters) : List (List EnvInput) → Counters
  | [] => c
  | tr :: rest => runAll v (workerRun v initWState c tr).2.1 rest

theorem runAll_active_zero (v : Bool) :
    ∀ (traces : List (List EnvInput)) (c : Counters), c.active = 0 →
      (∀ t ∈ traces,
        (workerRun v initWState initCounters t).1.phase = Phase.terminated) →
      (runAll v c traces).active = 0 := by
  intro traces
  induction traces with
  | nil => intro c hc _; simpa [runAll] using hc
  | cons tr rest ih =>
    intro c hc hall
    have hterm : (workerRun v initWState c tr).1.phase = Phase.terminated := by
      rw [workerRun_state_indep v tr initWState c initCounters]
      exact hall tr (List.mem_cons_self _ _)
    have hb := worker_balanced v c tr hterm
    simp only [runAll]
    exact ih _ (by rw [hb, hc]) (fun t ht => hall t (List.mem_cons_of_mem _ ht))

/-- C10: a worker that reaches Terminated has run one deferred `active`
decrement for every increment it performed, so its net effect on `active` is
zero; consequently, once every spawned worker has terminated (the point at
which the coordinator's wait returns), `active` is back to 0. -/
theorem active_balanced_at_termination (v : Bool) (c : Counters)
    (tr : List EnvInput) (traces : List (List EnvInput))
    (hterm : (workerRun v initWState c tr).1.phase = Phase.terminated)
    (hall : ∀ t ∈ traces,
      (workerRun v initWState initCounters t).1.phase = Phase.terminated)
    (hzero : c.active = 0) :
    (workerRun v initWState c tr).2.1.active = c.active
      ∧ (runAll v c traces).active = 0 :=
  ⟨worker_balanced v c tr hterm, runAll_active_zero v traces c hzero hall⟩

/-- Environment input in which the worker observes the fired shutdown signal
while in the Connecting phase. -/
def shutdownAtConnecting : EnvInput :=
  ⟨true, 0, DialResult.ok, ReadResult.otherError, PingResult.ok⟩

/-- Concrete instance of `active_balanced_at_termination`: a worker that
connects once and then observes shutdown terminates with `active` back at
its starting value, and a one-worker run ends with `active = 0`. -/
theorem active_balanced_at_termination_witness :
    (workerRun false initWState initCounters
        [⟨false, 0, DialResult.ok, ReadResult.msg 1 [], PingResult.ok⟩,
         shutdownAtConnecting]).2.1.active = initCounters.active
      ∧ (runAll false initCounters
          [[⟨false, 0, DialResult.ok, ReadResult.msg 1 [], PingResult.ok⟩,
            shutdownAtConnecting]]).active = 0 :=
  active_balanced_at_termination false initCounters
    [⟨false, 0, DialResult.ok, ReadResult.msg 1 [], PingResult.ok⟩,
     shutdownAtConnecting]
    [[⟨false, 0, DialResult.ok, ReadResult.msg 1 [], PingResult.ok⟩,
      shutdownAtConnecting]]
    (by decide) (by decide) (by decide)

end SocketStorm
